import Mathlib

/-!
Verification of the real-time audio enhancement pipeline of this repository.
The pipeline lives in `client/src/utils/webrtcFilters.ts` (which contains two
concatenated class variants: the "Optimized Chain B" implementation and an
older multi-level implementation appended after it), in
`client/src/utils/audioFilters.ts`, and in an unnamed module that adds
real-time parameter adjustment (`updateFilterParams`).

The TypeScript classes are embedded shallowly:
* mutable instance fields become explicit state records;
* per-audio-frame callbacks (`onaudioprocess` handlers) become step functions
  on those records, taking the per-frame energy estimate and frame duration
  as inputs;
* the Web Audio node graph becomes an explicit list of directed edges;
* fallible operations return `Except`.

Numeric values are rationals; the decimal literals below denote exactly the
decimal constants of the source.
-/

/-- The Web Audio node kinds appearing in the filter pipelines, named after
the instance fields that hold them in the source. -/
inductive AudioNode where
  | source
  | highPass
  | notch
  | delayNode
  | noiseGate
  | speechEnhancer
  | lowPass
  | compressor
  | limiter
  | outputNormalizer
  | analyser
  | gateProcessor
  | contextDestination
  | destinationNode
deriving DecidableEq, Repr

/-- Errors raised by the media-capture API (`getUserMedia`). -/
inductive CaptureError where
  | denied
  | unavailable
deriving DecidableEq, Repr

/-- Which constraint set a capture attempt uses: the full advanced WebRTC
constraint set, or the minimal fallback set used on retry. -/
inductive ConstraintSet where
  | advanced
  | fallback
deriving DecidableEq, Repr

namespace ChainB

/-- `NoiseFilterLevel` of the Chain B variant: the source declares
`export type NoiseFilterLevel = 'high'`, so `high` is its only valid level. -/
inductive NoiseFilterLevel where
  | high
deriving DecidableEq, Repr

/-- The mutable `gateParams` record of the Chain B class: configuration
thresholds plus the gate state proper (`isOpen`, `holdCounter`). -/
structure GateParams where
  openThreshold : ℚ
  closeThreshold : ℚ
  holdTime : ℚ
  lookAhead : ℚ
  isOpen : Bool
  holdCounter : ℚ
deriving DecidableEq, Repr

/-- Initial `gateParams` (the high-profile preset) from the source. -/
def initGateParams : GateParams :=
  { openThreshold := 0.015
    closeThreshold := 0.009
    holdTime := 250
    lookAhead := 8
    isOpen := false
    holdCounter := 0 }

/-- The `calibration` record of the Chain B class. -/
structure CalibrationData where
  noiseFloor : ℚ
  spectrumPeak : ℚ
  calibrated : Bool
deriving DecidableEq, Repr

/-- Initial `calibration` value from the source. -/
def initCalibration : CalibrationData :=
  { noiseFloor := 0.015, spectrumPeak := 2800, calibrated := false }

/-- Result of `setupNoiseGate`: the analyser is always created
(`createAnalyser`, fftSize 1024), the gate gain node is always created with
`gain.value = 0` ("Start closed"), and the ScriptProcessor (buffer 512) is
created only when the runtime offers `createScriptProcessor`. -/
structure NoiseGateSetup where
  analyserFftSize : Option ℕ
  noiseGateGain : Option ℚ
  gateProcessorBufferSize : Option ℕ
deriving DecidableEq, Repr

/-- `setupNoiseGate`, parameterized by whether the runtime supports
`createScriptProcessor`. -/
def setupNoiseGate (hasScriptProcessor : Bool) : NoiseGateSetup :=
  { analyserFftSize := some 1024
    noiseGateGain := some 0
    gateProcessorBufferSize := if hasScriptProcessor then some 512 else none }

/-- Result of `createAdvancedFilterChain`: the `filterChain` array plus the
noise-gate setup it performed. -/
structure ChainBuild where
  filterChain : List AudioNode
  gateSetup : NoiseGateSetup
deriving DecidableEq, Repr

/-- `createAdvancedFilterChain` of the Chain B variant.  It pushes, in program
order: highpass (220 Hz), notch (60 Hz), lookahead delay (8 ms), the noise
gate (pushed only when the gate gain node exists — it always does), speech
enhancer (2800 Hz peaking), lowpass (6000 Hz), compressor, limiter, and the
output normalizer. -/
def createAdvancedFilterChain (hasScriptProcessor : Bool) : ChainBuild :=
  let gateSetup := setupNoiseGate hasScriptProcessor
  { filterChain :=
      [AudioNode.highPass, AudioNode.notch, AudioNode.delayNode] ++
      (match gateSetup.noiseGateGain with
       | some _ => [AudioNode.noiseGate]
       | none => []) ++
      [AudioNode.speechEnhancer, AudioNode.lowPass, AudioNode.compressor,
       AudioNode.limiter, AudioNode.outputNormalizer]
    gateSetup := gateSetup }

/-- The consecutive connections made by the loop
`filterChain[i].connect(filterChain[i+1])`. -/
def seqPairs : List AudioNode → List (AudioNode × AudioNode)
  | a :: b :: rest => (a, b) :: seqPairs (b :: rest)
  | _ => []

/-- `connectFilterChain` of the Chain B variant as an edge list: source to the
first stage, the stages in sequence, then the special analysis connection
(delay node to analyser to gate processor to the context destination — made
only when the gate processor exists), then the last stage to the destination
node. -/
def connectFilterChain (hasScriptProcessor : Bool) : List (AudioNode × AudioNode) :=
  let chain := (createAdvancedFilterChain hasScriptProcessor).filterChain
  match chain with
  | [] => []
  | first :: _ =>
      ((AudioNode.source, first) :: seqPairs chain) ++
      (if hasScriptProcessor then
        [(AudioNode.delayNode, AudioNode.analyser),
         (AudioNode.analyser, AudioNode.gateProcessor),
         (AudioNode.gateProcessor, AudioNode.contextDestination)]
       else []) ++
      (match chain.getLast? with
       | some last => [(last, AudioNode.destinationNode)]
       | none => [])

/-- The threshold selected by `processNoiseGate`:
`currentlyOpen ? closeThreshold : openThreshold`. -/
def gateThreshold (g : GateParams) : ℚ :=
  if g.isOpen then g.closeThreshold else g.openThreshold

/-- One invocation of the `processNoiseGate` audio callback.  `rms` is the
band-limited (300–4000 Hz) energy estimate the source computes from the
analyser's byte frequency data; `frameMs` is
`event.inputBuffer.length / sampleRate * 1000`.  Returns the updated
`gateParams` record together with the gain ramp target issued to the gate
gain node on this frame (`some 1` on opening, `some 0` on closing, `none`
otherwise). -/
def processNoiseGate (g : GateParams) (rms frameMs : ℚ) : GateParams × Option ℚ :=
  if gateThreshold g < rms ∧ g.isOpen = false then
    ({ g with isOpen := true, holdCounter := 0 }, some 1)
  else if rms ≤ gateThreshold g ∧ g.isOpen = true then
    if g.holdTime ≤ g.holdCounter + frameMs then
      ({ g with isOpen := false, holdCounter := 0 }, some 0)
    else
      ({ g with holdCounter := g.holdCounter + frameMs }, none)
  else if g.isOpen = true ∧ gateThreshold g < rms then
    ({ g with holdCounter := 0 }, none)
  else (g, none)

/-- The gate state after `n` analysis frames, starting from `g`, where frame
`i` carries energy estimate `rms i` and every frame lasts `frameMs`
milliseconds. -/
def gateRun (g : GateParams) (rms : ℕ → ℚ) (frameMs : ℚ) : ℕ → GateParams
  | 0 => g
  | n + 1 => (processNoiseGate (gateRun g rms frameMs n) (rms n) frameMs).1

/-- `targetSamples` of `performAutoCalibration`:
`Math.floor(800 / (512 / sampleRate * 1000))` — roughly 800 ms worth of
512-sample blocks. -/
def targetSamples (sampleRate : ℚ) : ℕ :=
  (⌊(800 : ℚ) / (512 / sampleRate * 1000)⌋).toNat

/-- The calibration sampling loop: one RMS sample is accumulated per audio
block; when `samples` reaches the target the loop stops (the source
disconnects the calibration processor) and yields the mean together with the
number of samples taken.  `none` means the input ended before the window
completed (the promise never resolves; the calibration record is left
untouched). -/
def calibLoop (target : ℕ) : List ℚ → ℕ → ℚ → Option (ℚ × ℕ)
  | [], _, _ => none
  | r :: rest, samples, noiseSum =>
      let samples' := samples + 1
      let noiseSum' := noiseSum + r
      if target ≤ samples' then some (noiseSum' / (samples' : ℚ), samples')
      else calibLoop target rest samples' noiseSum'

/-- The tunable state `performAutoCalibration` adjusts on completion: the
gate parameter record, the highpass cutoff and the output normalizer gain. -/
structure TuningState where
  gate : GateParams
  highPassFreq : ℚ
  outputNormalizerGain : ℚ
deriving DecidableEq, Repr

/-- Tuning state as left by `createAdvancedFilterChain` (highpass at 220 Hz,
normalizer at unity). -/
def initTuning : TuningState :=
  { gate := initGateParams, highPassFreq := 220, outputNormalizerGain := 1 }

/-- The parameter adjustment the source performs once the average noise floor
is known: above 0.02 raise the thresholds (capped) and the highpass cutoff;
below 0.005 lower them (floored); then nudge the output normalizer gain. -/
def calibrationAdjust (t : TuningState) (avgNoiseFloor : ℚ) : TuningState :=
  let t1 :=
    if 0.02 < avgNoiseFloor then
      { t with
          gate := { t.gate with
            openThreshold := min 0.025 (avgNoiseFloor * 1.5)
            closeThreshold := min 0.015 (avgNoiseFloor * 1.2) }
          highPassFreq := 250 }
    else if avgNoiseFloor < 0.005 then
      { t with
          gate := { t.gate with
            openThreshold := max 0.008 (avgNoiseFloor * 2)
            closeThreshold := max 0.004 (avgNoiseFloor * 1.5) }
          highPassFreq := 180 }
    else t
  { t1 with outputNormalizerGain := if 0.015 < avgNoiseFloor then 0.9 else 1.1 }

/-- Result of one `performAutoCalibration` invocation: the calibration
record, the tuning state, and whether the invocation attached the sampling
processor at all (it returns immediately when the analyser is missing or the
session is already calibrated). -/
structure CalibrationOutcome where
  calibration : CalibrationData
  tuning : TuningState
  sampled : Bool
deriving DecidableEq, Repr

/-- `performAutoCalibration`.  The early return (no analyser, or already
calibrated) resolves immediately without sampling — it runs before anything
else.  Otherwise the promise executor calls
`this.audioContext.createScriptProcessor(512, 1, 1)` unconditionally: on a
runtime without ScriptProcessor support that call throws, rejecting the
calibration promise (the thrown TypeError is modeled as a string error).
With the processor created, `blocks` is the sequence of per-block RMS values
the sampling processor computes. -/
def performAutoCalibration (hasAnalyser : Bool) (c : CalibrationData)
    (t : TuningState) (hasScriptProcessor : Bool) (sampleRate : ℚ)
    (blocks : List ℚ) : Except String CalibrationOutcome :=
  if hasAnalyser = false ∨ c.calibrated = true then
    Except.ok { calibration := c, tuning := t, sampled := false }
  else if hasScriptProcessor = false then
    Except.error "createScriptProcessor is not a function"
  else
    match calibLoop (targetSamples sampleRate) blocks 0 0 with
    | none => Except.ok { calibration := c, tuning := t, sampled := true }
    | some (avgNoiseFloor, _) =>
        Except.ok
          { calibration := { c with noiseFloor := avgNoiseFloor, calibrated := true }
            tuning := calibrationAdjust t avgNoiseFloor
            sampled := true }

/-- `initializeWebRTCStream`: one capture attempt with the advanced
constraint set; on any exception, one further attempt with the fallback
constraint set, whose result propagates.  Returns the final result together
with the list of constraint sets actually attempted, in order. -/
def initializeWebRTCStream (capture : ConstraintSet → Except CaptureError ℕ) :
    Except CaptureError ℕ × List ConstraintSet :=
  match capture ConstraintSet.advanced with
  | Except.ok stream => (Except.ok stream, [ConstraintSet.advanced])
  | Except.error _ =>
      (capture ConstraintSet.fallback, [ConstraintSet.advanced, ConstraintSet.fallback])

/-- `applyAdvancedFiltering`: creates the source and destination nodes,
builds and connects the filter chain (which never throws), then awaits
`performAutoCalibration`; a rejected calibration promise rejects this whole
step. -/
def applyAdvancedFiltering (hasScriptProcessor : Bool) (c : CalibrationData)
    (t : TuningState) (sampleRate : ℚ) (blocks : List ℚ) :
    Except String (ChainBuild × CalibrationOutcome) :=
  let build := createAdvancedFilterChain hasScriptProcessor
  match performAutoCalibration true c t hasScriptProcessor sampleRate blocks with
  | Except.ok out => Except.ok (build, out)
  | Except.error e => Except.error e

/-- The full `initializeWebRTCStream` flow with the filtering step included
(the capture-retry structure alone is `initializeWebRTCStream` above): each
attempt acquires a stream and then runs `applyAdvancedFiltering`; any
exception in the first attempt — at capture or at filtering — lands in the
catch block and triggers the single fallback attempt, and the fallback
attempt's exception propagates to the caller. -/
def initializeWebRTCStreamSession (capture : ConstraintSet → Except String ℕ)
    (hasScriptProcessor : Bool) (c : CalibrationData) (t : TuningState)
    (sampleRate : ℚ) (blocks : List ℚ) :
    Except String (ℕ × ChainBuild × CalibrationOutcome) :=
  let attempt := fun (cs : ConstraintSet) =>
    match capture cs with
    | Except.error e => Except.error e
    | Except.ok stream =>
        match applyAdvancedFiltering hasScriptProcessor c t sampleRate blocks with
        | Except.ok r => Except.ok (stream, r.1, r.2)
        | Except.error e => Except.error e
  match attempt ConstraintSet.advanced with
  | Except.ok r => Except.ok r
  | Except.error _ => attempt ConstraintSet.fallback

/-- The resources of one Chain B session that `destroy` touches, plus the
calibration sampling processor (which `destroy` never references
directly). -/
structure SessionState where
  chainConnected : Bool
  gateProcessorAttached : Bool
  streamTracksLive : Bool
  contextClosed : Bool
  calibrationProcessorAttached : Bool
  isInitialized : Bool
deriving DecidableEq, Repr

/-- `destroy`: disconnects every chain node (each wrapped in try/catch, so
disconnect errors are swallowed), disconnects and clears the gate processor
if present, stops the stream tracks if present, closes the audio context
unless already closed, and clears `isInitialized`.  Every operation that
could throw is guarded, so the result is always `Except.ok`. -/
def destroy (s : SessionState) : Except String SessionState :=
  let s1 := { s with chainConnected := false }
  let s2 := if s1.gateProcessorAttached then { s1 with gateProcessorAttached := false } else s1
  let s3 := if s2.streamTracksLive then { s2 with streamTracksLive := false } else s2
  let s4 := if s3.contextClosed = false then { s3 with contextClosed := true } else s3
  Except.ok { s4 with isInitialized := false }

/-- A ScriptProcessor audio callback can fire only while its node is attached
and its AudioContext has not been closed (Web Audio semantics: a closed
context processes no further audio). -/
def gateCallbackCanFire (s : SessionState) : Prop :=
  s.gateProcessorAttached = true ∧ s.contextClosed = false

/-- Same firing condition for the calibration sampling processor. -/
def calibrationCallbackCanFire (s : SessionState) : Prop :=
  s.calibrationProcessorAttached = true ∧ s.contextClosed = false

/-- The session state `destroy` produces: everything released, context
closed, the calibration processor flag untouched (destroy never disconnects
it — only the context closure silences it). -/
def destroyedState (s : SessionState) : SessionState :=
  { chainConnected := false
    gateProcessorAttached := false
    streamTracksLive := false
    contextClosed := true
    calibrationProcessorAttached := s.calibrationProcessorAttached
    isInitialized := false }

end ChainB

namespace Variant2

/-- `NoiseFilterLevel` of the second (appended) variant in
`webrtcFilters.ts`. -/
inductive NoiseFilterLevel where
  | low
  | medium
  | high
  | aggressive
deriving DecidableEq, Repr

/-- The `filterChain` array assembled by `createAdvancedFilterChain` of the
second variant: highpass, notch, speech enhancer, lowpass, compressor, noise
gate, limiter — no lookahead delay and no output trim stage. -/
def createAdvancedFilterChain : List AudioNode :=
  [AudioNode.highPass, AudioNode.notch, AudioNode.speechEnhancer,
   AudioNode.lowPass, AudioNode.compressor, AudioNode.noiseGate,
   AudioNode.limiter]

/-- The stage list built when `getOptimizedStream(level)` runs: it calls
`createAdvancedFilterChain()`, which does not depend on the level
(`tuneFiltersForLevel` changes only numeric parameters, never the order). -/
def getOptimizedStreamChain (_ : NoiseFilterLevel) : List AudioNode :=
  createAdvancedFilterChain

end Variant2

namespace Variant3

/-- `AudioFilterParams` of the real-time-adjustment variant (the unnamed
module). -/
structure AudioFilterParams where
  highPassFreq : ℚ
  highPassQ : ℚ
  speechFreq : ℚ
  speechQ : ℚ
  speechGain : ℚ
  lowPassFreq : ℚ
  lowPassQ : ℚ
  compressorThreshold : ℚ
  compressorRatio : ℚ
  compressorAttack : ℚ
  compressorRelease : ℚ
  noiseGateThreshold : ℚ
deriving DecidableEq, Repr

/-- The initial `filterParams` value of that class. -/
def initFilterParams : AudioFilterParams :=
  { highPassFreq := 150
    highPassQ := 1.2
    speechFreq := 2500
    speechQ := 1.5
    speechGain := 3
    lowPassFreq := 7000
    lowPassQ := 1
    compressorThreshold := -20
    compressorRatio := 3
    compressorAttack := 0.003
    compressorRelease := 0.1
    noiseGateThreshold := 0.015 }

/-- A `Partial<AudioFilterParams>` argument: each field either present with a
value or absent. -/
structure ParamsUpdate where
  highPassFreq : Option ℚ := none
  highPassQ : Option ℚ := none
  speechFreq : Option ℚ := none
  speechQ : Option ℚ := none
  speechGain : Option ℚ := none
  lowPassFreq : Option ℚ := none
  lowPassQ : Option ℚ := none
  compressorThreshold : Option ℚ := none
  compressorRatio : Option ℚ := none
  compressorAttack : Option ℚ := none
  compressorRelease : Option ℚ := none
  noiseGateThreshold : Option ℚ := none
deriving DecidableEq, Repr

/-- `Object.assign(this.filterParams, params)`: every field present in the
update overwrites the stored field. -/
def objectAssign (p : AudioFilterParams) (u : ParamsUpdate) : AudioFilterParams :=
  { highPassFreq := u.highPassFreq.getD p.highPassFreq
    highPassQ := u.highPassQ.getD p.highPassQ
    speechFreq := u.speechFreq.getD p.speechFreq
    speechQ := u.speechQ.getD p.speechQ
    speechGain := u.speechGain.getD p.speechGain
    lowPassFreq := u.lowPassFreq.getD p.lowPassFreq
    lowPassQ := u.lowPassQ.getD p.lowPassQ
    compressorThreshold := u.compressorThreshold.getD p.compressorThreshold
    compressorRatio := u.compressorRatio.getD p.compressorRatio
    compressorAttack := u.compressorAttack.getD p.compressorAttack
    compressorRelease := u.compressorRelease.getD p.compressorRelease
    noiseGateThreshold := u.noiseGateThreshold.getD p.noiseGateThreshold }

/-- The live parameter values held by the filter nodes that
`updateFilterParams` can touch (the noise-gate threshold has no node
parameter; the gate processor reads it from `filterParams` directly). -/
structure FilterNodeValues where
  highPassFreq : ℚ
  highPassQ : ℚ
  speechFreq : ℚ
  speechQ : ℚ
  speechGain : ℚ
  lowPassFreq : ℚ
  lowPassQ : ℚ
  compressorThreshold : ℚ
  compressorRatio : ℚ
  compressorAttack : ℚ
  compressorRelease : ℚ
deriving DecidableEq, Repr

/-- Node values as set by `createAdvancedFilterChain` from a parameter
record. -/
def nodeValuesOf (p : AudioFilterParams) : FilterNodeValues :=
  { highPassFreq := p.highPassFreq
    highPassQ := p.highPassQ
    speechFreq := p.speechFreq
    speechQ := p.speechQ
    speechGain := p.speechGain
    lowPassFreq := p.lowPassFreq
    lowPassQ := p.lowPassQ
    compressorThreshold := p.compressorThreshold
    compressorRatio := p.compressorRatio
    compressorAttack := p.compressorAttack
    compressorRelease := p.compressorRelease }

/-- The node values at session start. -/
def initNodeValues : FilterNodeValues := nodeValuesOf initFilterParams

/-- One `if (node && params.field) node.param.value = params.field`
assignment: the write happens only when the field is present and truthy
(a number is falsy exactly when it is 0). -/
def setIf (cur : ℚ) (o : Option ℚ) : ℚ :=
  match o with
  | some v => if v ≠ 0 then v else cur
  | none => cur

/-- The per-node writes `updateFilterParams` performs when the session is
initialized. -/
def applyNodeUpdates (n : FilterNodeValues) (u : ParamsUpdate) : FilterNodeValues :=
  { highPassFreq := setIf n.highPassFreq u.highPassFreq
    highPassQ := setIf n.highPassQ u.highPassQ
    speechFreq := setIf n.speechFreq u.speechFreq
    speechQ := setIf n.speechQ u.speechQ
    speechGain := setIf n.speechGain u.speechGain
    lowPassFreq := setIf n.lowPassFreq u.lowPassFreq
    lowPassQ := setIf n.lowPassQ u.lowPassQ
    compressorThreshold := setIf n.compressorThreshold u.compressorThreshold
    compressorRatio := setIf n.compressorRatio u.compressorRatio
    compressorAttack := setIf n.compressorAttack u.compressorAttack
    compressorRelease := setIf n.compressorRelease u.compressorRelease }

/-- `updateFilterParams(params)`: `Object.assign` into the stored record runs
unconditionally; the node writes run only when `isInitialized` is true. -/
def updateFilterParams (isInitialized : Bool) (stored : AudioFilterParams)
    (nodes : FilterNodeValues) (u : ParamsUpdate) :
    AudioFilterParams × FilterNodeValues :=
  let stored' := objectAssign stored u
  if isInitialized then (stored', applyNodeUpdates nodes u) else (stored', nodes)

end Variant3

namespace AudioFilters

/-- `AudioFilters.getFilteredMicrophoneStream`: one capture attempt with the
full constraint set; on any exception, one further attempt with the basic
fallback constraints, whose result propagates. -/
def getFilteredMicrophoneStream (capture : ConstraintSet → Except CaptureError ℕ) :
    Except CaptureError ℕ × List ConstraintSet :=
  match capture ConstraintSet.advanced with
  | Except.ok stream => (Except.ok stream, [ConstraintSet.advanced])
  | Except.error _ =>
      (capture ConstraintSet.fallback, [ConstraintSet.advanced, ConstraintSet.fallback])

end AudioFilters

section GateLemmas

open ChainB

/-- `processNoiseGate` never changes the configuration fields of the gate
record. -/
theorem gate_step_config (g : GateParams) (rms d : ℚ) :
    (processNoiseGate g rms d).1.openThreshold = g.openThreshold ∧
    (processNoiseGate g rms d).1.closeThreshold = g.closeThreshold ∧
    (processNoiseGate g rms d).1.holdTime = g.holdTime := by
  unfold processNoiseGate
  split_ifs <;> simp

/-- `gateRun` never changes the configuration fields of the gate record. -/
theorem gateRun_config (g : GateParams) (rms : ℕ → ℚ) (d : ℚ) (n : ℕ) :
    (gateRun g rms d n).openThreshold = g.openThreshold ∧
    (gateRun g rms d n).closeThreshold = g.closeThreshold ∧
    (gateRun g rms d n).holdTime = g.holdTime := by
  induction n with
  | zero => exact ⟨rfl, rfl, rfl⟩
  | succ n ih =>
      have h := gate_step_config (gateRun g rms d n) (rms n) d
      exact ⟨h.1.trans ih.1, h.2.1.trans ih.2.1, h.2.2.trans ih.2.2⟩

/-- A closed gate seeing energy at or below its open threshold is left
completely unchanged by one analysis frame. -/
theorem gate_step_closed (s : GateParams) (rms d : ℚ)
    (hClosed : s.isOpen = false) (hr : rms ≤ s.openThreshold) :
    (processNoiseGate s rms d).1 = s := by
  have ht : gateThreshold s = s.openThreshold := by
    simp [gateThreshold, hClosed]
  simp [processNoiseGate, ht, hClosed, not_lt.mpr hr]

/-- An open gate seeing energy at or below its close threshold either keeps
accumulating the hold counter or closes, depending on whether the
accumulated hold reaches the hold time. -/
theorem gate_step_open_low (s : GateParams) (rms d : ℚ)
    (hOpen : s.isOpen = true) (hr : rms ≤ s.closeThreshold) :
    (processNoiseGate s rms d).1 =
      if s.holdTime ≤ s.holdCounter + d then
        { s with isOpen := false, holdCounter := 0 }
      else
        { s with holdCounter := s.holdCounter + d } := by
  have ht : gateThreshold s = s.closeThreshold := by
    simp [gateThreshold, hOpen]
  simp only [processNoiseGate, ht, hOpen, hr]
  split_ifs <;> simp_all

/-- One `processNoiseGate` step preserves the implication
"closed implies hold counter zero". -/
theorem gate_step_inv (s : GateParams) (rms d : ℚ)
    (h : s.isOpen = false → s.holdCounter = 0) :
    (processNoiseGate s rms d).1.isOpen = false →
    (processNoiseGate s rms d).1.holdCounter = 0 := by
  unfold processNoiseGate
  split_ifs <;> simp_all

end GateLemmas

/-- C1 (counterexample): the claim asserts that for every valid
noise-profile level the construction routine builds the fixed nine-stage
order with the lookahead delay and with the noise gate before the speech
enhancer.  The second variant cited by the claim builds, for its level
`medium` (as for every other level), a chain that differs from that fixed
order. -/
theorem c1_counterexample :
    Variant2.getOptimizedStreamChain Variant2.NoiseFilterLevel.medium ≠
      [AudioNode.highPass, AudioNode.notch, AudioNode.delayNode,
       AudioNode.noiseGate, AudioNode.speechEnhancer, AudioNode.lowPass,
       AudioNode.compressor, AudioNode.limiter, AudioNode.outputNormalizer] := by
  decide

/-- C1 (amended): the Chain B variant builds exactly the fixed order
[highpass, notch, lookahead-delay, noise-gate, speech-enhancer, lowpass,
compressor, limiter, output-trim] (so there the gate precedes the enhancer
and the limiter follows the compressor), while the second variant builds,
for every one of its levels, the seven-stage order [highpass, notch,
speech-enhancer, lowpass, compressor, noise-gate, limiter], in which the
limiter still follows the compressor but the noise gate follows the speech
enhancer. -/
theorem c1_stage_order :
    (∀ hasScriptProcessor : Bool,
      (ChainB.createAdvancedFilterChain hasScriptProcessor).filterChain =
        [AudioNode.highPass, AudioNode.notch, AudioNode.delayNode,
         AudioNode.noiseGate, AudioNode.speechEnhancer, AudioNode.lowPass,
         AudioNode.compressor, AudioNode.limiter, AudioNode.outputNormalizer]) ∧
    (∀ level : Variant2.NoiseFilterLevel,
      Variant2.getOptimizedStreamChain level =
        [AudioNode.highPass, AudioNode.notch, AudioNode.speechEnhancer,
         AudioNode.lowPass, AudioNode.compressor, AudioNode.noiseGate,
         AudioNode.limiter]) :=
  ⟨fun b => by cases b <;> rfl, fun level => by cases level <;> rfl⟩

/-- C5 (counterexample): the claim says that when the runtime offers no
ScriptProcessor the gated element holds unity gain.  In the code the gate
gain node is created with gain 0 ("Start closed") and, with no gate
processor to ever open it, stays at 0 — not at 1. -/
theorem c5_counterexample :
    (ChainB.setupNoiseGate false).noiseGateGain = some 0 ∧
    (ChainB.setupNoiseGate false).noiseGateGain ≠ some 1 := by
  decide

/-- C5 (amended): when the runtime offers no ScriptProcessor support the
noise gate does not degrade to a unity pass-through, and the pipeline does
not survive either: no gate processor exists and the gate gain node sits at
its initial constant 0 (a mute), and although the chain itself is still
assembled, `performAutoCalibration` throws on its unconditional
`createScriptProcessor` call, so `applyAdvancedFiltering` rejects on both
the advanced attempt and the fallback attempt and `initializeWebRTCStream`
fails — session start errors out instead of continuing. -/
theorem c5_gate_mute_and_session_fails (stream : ℕ) (blocks : List ℚ) :
    (ChainB.setupNoiseGate false).gateProcessorBufferSize = none ∧
    (ChainB.setupNoiseGate false).noiseGateGain = some 0 ∧
    (ChainB.createAdvancedFilterChain false).filterChain =
      [AudioNode.highPass, AudioNode.notch, AudioNode.delayNode,
       AudioNode.noiseGate, AudioNode.speechEnhancer, AudioNode.lowPass,
       AudioNode.compressor, AudioNode.limiter, AudioNode.outputNormalizer] ∧
    ChainB.performAutoCalibration true ChainB.initCalibration ChainB.initTuning
        false 48000 blocks =
      Except.error "createScriptProcessor is not a function" ∧
    ChainB.initializeWebRTCStreamSession (fun _ => Except.ok stream) false
        ChainB.initCalibration ChainB.initTuning 48000 blocks =
      Except.error "createScriptProcessor is not a function" := by
  refine ⟨rfl, rfl, rfl, ?_, ?_⟩
  · simp [ChainB.performAutoCalibration, ChainB.initCalibration]
  · simp [ChainB.initializeWebRTCStreamSession, ChainB.applyAdvancedFiltering,
      ChainB.performAutoCalibration, ChainB.initCalibration]

/-- C6: teardown is idempotent — `destroy` never throws, a second call
returns the same state as the first, and after the first call neither the
gate-analysis callback nor the calibration sampling callback can fire again
(the gate processor is disconnected and the audio context is closed; the
calibration processor, which `destroy` never touches directly, is silenced
by the context closure). -/
theorem c6_destroy_idempotent (s : ChainB.SessionState) :
    ChainB.destroy s = Except.ok (ChainB.destroyedState s) ∧
    ChainB.destroy (ChainB.destroyedState s) = Except.ok (ChainB.destroyedState s) ∧
    ¬ ChainB.gateCallbackCanFire (ChainB.destroyedState s) ∧
    ¬ ChainB.calibrationCallbackCanFire (ChainB.destroyedState s) := by
  obtain ⟨a, b, c, d, e, f⟩ := s
  cases b <;> cases c <;> cases d <;>
    simp [ChainB.destroy, ChainB.destroyedState, ChainB.gateCallbackCanFire,
      ChainB.calibrationCallbackCanFire]

/-- C7 (counterexample): the claim says a permission-denied failure never
leads to a second capture attempt.  In the code the catch block does not
inspect the error: when the first attempt fails with the denied error, a
second attempt with the fallback constraints is still made, and its error
propagates. -/
theorem c7_counterexample :
    (ChainB.initializeWebRTCStream fun _ => Except.error CaptureError.denied).2 =
      [ConstraintSet.advanced, ConstraintSet.fallback] ∧
    (ChainB.initializeWebRTCStream fun _ => Except.error CaptureError.denied).2 ≠
      [ConstraintSet.advanced] := by
  constructor
  · rfl
  · decide

/-- C7 (amended): any failure of the first capture attempt — a permission
denial included — triggers exactly one retry with the minimal fallback
constraint set, and the retry's result propagates unchanged; a successful
first attempt makes no retry.  The same holds for
`AudioFilters.getFilteredMicrophoneStream`. -/
theorem c7_single_retry_any_error (capture : ConstraintSet → Except CaptureError ℕ) :
    (∀ n, capture ConstraintSet.advanced = Except.ok n →
        ChainB.initializeWebRTCStream capture =
          (Except.ok n, [ConstraintSet.advanced])) ∧
    (∀ e, capture ConstraintSet.advanced = Except.error e →
        ChainB.initializeWebRTCStream capture =
          (capture ConstraintSet.fallback,
           [ConstraintSet.advanced, ConstraintSet.fallback])) ∧
    (∀ n, capture ConstraintSet.advanced = Except.ok n →
        AudioFilters.getFilteredMicrophoneStream capture =
          (Except.ok n, [ConstraintSet.advanced])) ∧
    (∀ e, capture ConstraintSet.advanced = Except.error e →
        AudioFilters.getFilteredMicrophoneStream capture =
          (capture ConstraintSet.fallback,
           [ConstraintSet.advanced, ConstraintSet.fallback])) := by
  refine ⟨fun n h => ?_, fun e h => ?_, fun n h => ?_, fun e h => ?_⟩ <;>
    simp [ChainB.initializeWebRTCStream, AudioFilters.getFilteredMicrophoneStream, h]

/-- C7 (witness): the amended retry semantics evaluated on a capture
function that denies every attempt. -/
theorem c7_single_retry_any_error_witness :
    ChainB.initializeWebRTCStream (fun _ => Except.error CaptureError.denied) =
      (Except.error CaptureError.denied,
       [ConstraintSet.advanced, ConstraintSet.fallback]) :=
  (c7_single_retry_any_error (fun _ => Except.error CaptureError.denied)).2.1
    CaptureError.denied rfl

/-- C8: in the constructed Chain B graph the analyser (the gate's
energy-analysis tap) is fed by the delay node's output — it is the unique
node feeding the analyser, and in particular no pre-delay node (such as the
notch filter) feeds it.  The gate decision therefore sees exactly the same
delayed signal as the attenuator, so the lookahead delay buys no analysis
lead, contradicting the claimed (and commented) lookahead design. -/
theorem c8_tap_post_delay :
    (AudioNode.delayNode, AudioNode.analyser) ∈ ChainB.connectFilterChain true ∧
    (∀ p ∈ ChainB.connectFilterChain true,
        p.2 = AudioNode.analyser → p.1 = AudioNode.delayNode) ∧
    (AudioNode.notch, AudioNode.analyser) ∉ ChainB.connectFilterChain true := by
  decide

/-- C9 (counterexample): the claim says a parameter update with no active
session leaves the stored FilterParams record unchanged.  In the code
`Object.assign` into the stored record runs before the `isInitialized`
check, so an inactive-session update still mutates the stored record. -/
theorem c9_counterexample :
    (Variant3.updateFilterParams false Variant3.initFilterParams
        Variant3.initNodeValues { highPassFreq := some 300 }).1 ≠
      Variant3.initFilterParams ∧
    (Variant3.updateFilterParams false Variant3.initFilterParams
        Variant3.initNodeValues { highPassFreq := some 300 }).1.highPassFreq = 300 ∧
    Variant3.initFilterParams.highPassFreq = 150 := by
  refine ⟨by decide, rfl, rfl⟩

/-- C9 (amended): when the session is not active, `updateFilterParams`
still merges the partial update into the stored FilterParams record (the
`Object.assign` is unconditional) but leaves every filter-node parameter
unchanged; only the node writes are gated on the session being active. -/
theorem c9_inactive_update_merges_stored (stored : Variant3.AudioFilterParams)
    (nodes : Variant3.FilterNodeValues) (u : Variant3.ParamsUpdate) :
    Variant3.updateFilterParams false stored nodes u =
      (Variant3.objectAssign stored u, nodes) := by
  simp [Variant3.updateFilterParams]

/-- C3: the hysteresis invariant `openThreshold > closeThreshold` holds for
the initial high-profile preset and is preserved by the calibration
threshold adjustment for every noise-floor estimate in [0, 1] (covering the
high-noise branch, the low-noise branch and the unchanged middle range). -/
theorem c3_hysteresis_invariant (f : ℚ) (h0 : 0 ≤ f) (h1 : f ≤ 1) :
    ChainB.initGateParams.openThreshold > ChainB.initGateParams.closeThreshold ∧
    (ChainB.calibrationAdjust ChainB.initTuning f).gate.openThreshold >
      (ChainB.calibrationAdjust ChainB.initTuning f).gate.closeThreshold := by
  refine ⟨by norm_num [ChainB.initGateParams], ?_⟩
  simp only [ChainB.calibrationAdjust, ChainB.initTuning, ChainB.initGateParams]
  split_ifs with hf hg
  · -- high-noise branch: f > 0.02
    have h15 : (0.025 : ℚ) ≤ f * 1.5 := by linarith
    have h12 : (0.015 : ℚ) ≤ f * 1.2 := by linarith
    simp [min_eq_left h15, min_eq_left h12]
    norm_num
  · -- low-noise branch: f < 0.005
    have hclose : max (0.004 : ℚ) (f * 1.5) < 0.008 :=
      max_lt (by norm_num) (by linarith)
    simp only
    exact lt_of_lt_of_le hclose (le_max_left _ _)
  · -- middle range: thresholds unchanged
    norm_num

/-- C3 (witness): the invariant theorem instantiated at the concrete
noise-floor estimate 0.03 (high-noise branch). -/
theorem c3_hysteresis_invariant_witness :
    (0 : ℚ) ≤ 0.03 ∧ (0.03 : ℚ) ≤ 1 ∧
    (ChainB.calibrationAdjust ChainB.initTuning 0.03).gate.openThreshold >
      (ChainB.calibrationAdjust ChainB.initTuning 0.03).gate.closeThreshold :=
  ⟨by norm_num, by norm_num,
    (c3_hysteresis_invariant 0.03 (by norm_num) (by norm_num)).2⟩

/-- The calibration sampling loop over a constant-prefixed input: starting
at `s` accumulated samples with sum `acc`, after the remaining
`k = target - s` blocks of value `N` it stops and reports the mean of all
`target` accumulated samples, ignoring any further input. -/
theorem calibLoop_replicate (t : ℕ) (N : ℚ) :
    ∀ (k s : ℕ) (acc : ℚ) (rest : List ℚ), s + k = t → s < t →
      ChainB.calibLoop t (List.replicate k N ++ rest) s acc =
        some ((acc + (k : ℚ) * N) / (t : ℚ), t) := by
  intro k
  induction k with
  | zero => intro s acc rest hsum hlt; omega
  | succ k ih =>
      intro s acc rest hsum hlt
      rw [List.replicate_succ, List.cons_append]
      simp only [ChainB.calibLoop]
      by_cases hts : t ≤ s + 1
      · have hst : s + 1 = t := by omega
        have hk : k = 0 := by omega
        subst hk
        rw [if_pos hts, hst]
        simp only [Option.some.injEq, Prod.mk.injEq]
        refine ⟨?_, trivial⟩
        push_cast
        ring
      · rw [if_neg hts, ih (s + 1) (acc + N) rest (by omega) (by omega)]
        simp only [Option.some.injEq, Prod.mk.injEq]
        refine ⟨?_, trivial⟩
        push_cast
        ring_nf

/-- C4: at the 48 kHz sample rate the calibration window is exactly 75
blocks (about 800 ms); an uncalibrated session fed 75 blocks of constant
per-block RMS `N` ends with `noiseFloorEstimate = N` (the arithmetic mean),
`calibrated = true`, sampling actually happened, any input beyond the window
is ignored, and a subsequent invocation on the now-calibrated state returns
without sampling and mutates nothing. -/
theorem c4_calibration_mean_and_freeze (N : ℚ) (rest extra : List ℚ)
    (tun : ChainB.TuningState) :
    ChainB.targetSamples 48000 = 75 ∧
    ∃ out : ChainB.CalibrationOutcome,
      ChainB.performAutoCalibration true ChainB.initCalibration tun true 48000
          (List.replicate 75 N ++ rest) = Except.ok out ∧
      out.calibration.noiseFloor = N ∧
      out.calibration.calibrated = true ∧
      out.sampled = true ∧
      ChainB.performAutoCalibration true out.calibration out.tuning true 48000 extra =
        Except.ok { calibration := out.calibration, tuning := out.tuning,
                    sampled := false } := by
  have htarget : ChainB.targetSamples 48000 = 75 := by
    have h75 : (800 : ℚ) / (512 / 48000 * 1000) = ((75 : ℕ) : ℚ) := by norm_num
    unfold ChainB.targetSamples
    rw [h75, Int.floor_natCast]
    rfl
  have hloop : ChainB.calibLoop 75 (List.replicate 75 N ++ rest) 0 0 = some (N, 75) := by
    rw [calibLoop_replicate 75 N 75 0 0 rest (by norm_num) (by norm_num)]
    norm_num
  have hout : ChainB.performAutoCalibration true ChainB.initCalibration tun true 48000
      (List.replicate 75 N ++ rest) =
      Except.ok
        { calibration := { noiseFloor := N, spectrumPeak := 2800, calibrated := true }
          tuning := ChainB.calibrationAdjust tun N
          sampled := true } := by
    unfold ChainB.performAutoCalibration
    rw [htarget, hloop]
    simp [ChainB.initCalibration]
  refine ⟨htarget, _, hout, rfl, rfl, rfl, ?_⟩
  unfold ChainB.performAutoCalibration
  simp

/-- C2: from any Open gate state with hold counter zero, with every frame's
band-limited energy at or below the close threshold, the gate stays Open
while the accumulated frame durations are below the hold time (the counter
holding exactly the accumulated duration), closes on exactly the first frame
whose accumulated duration reaches the hold time, and stays Closed on every
later frame; and from any Open state, a frame whose energy exceeds the close
threshold resets the hold counter to zero and leaves the gate Open. -/
theorem c2_gate_hold_then_single_close (g : ChainB.GateParams) (rms : ℕ → ℚ)
    (d : ℚ) (hOpen : g.isOpen = true) (hHold : g.holdCounter = 0)
    (hd : 0 < d) (hhys : g.closeThreshold < g.openThreshold)
    (hr : ∀ n, rms n ≤ g.closeThreshold) :
    (∀ n : ℕ, (n : ℚ) * d < g.holdTime →
        (ChainB.gateRun g rms d n).isOpen = true ∧
        (ChainB.gateRun g rms d n).holdCounter = (n : ℚ) * d) ∧
    (∀ n : ℕ, (n : ℚ) * d < g.holdTime → g.holdTime ≤ ((n : ℚ) + 1) * d →
        (ChainB.gateRun g rms d (n + 1)).isOpen = false ∧
        (ChainB.gateRun g rms d (n + 1)).holdCounter = 0) ∧
    (∀ n k : ℕ, (ChainB.gateRun g rms d n).isOpen = false →
        (ChainB.gateRun g rms d (n + k)).isOpen = false) ∧
    (∀ (s : ChainB.GateParams) (r : ℚ), s.isOpen = true → s.closeThreshold < r →
        (ChainB.processNoiseGate s r d).1.isOpen = true ∧
        (ChainB.processNoiseGate s r d).1.holdCounter = 0) := by
  have main : ∀ n : ℕ, (n : ℚ) * d < g.holdTime →
      (ChainB.gateRun g rms d n).isOpen = true ∧
      (ChainB.gateRun g rms d n).holdCounter = (n : ℚ) * d := by
    intro n
    induction n with
    | zero =>
        intro _
        exact ⟨hOpen, by simp [ChainB.gateRun, hHold]⟩
    | succ n ih =>
        intro hlt
        have hcast : ((n + 1 : ℕ) : ℚ) * d = (n : ℚ) * d + d := by push_cast; ring
        have hn : (n : ℚ) * d < g.holdTime := by
          rw [hcast] at hlt
          linarith
        obtain ⟨hio, hhc⟩ := ih hn
        have hstep := gate_step_open_low (ChainB.gateRun g rms d n) (rms n) d hio
          (by rw [(gateRun_config g rms d n).2.1]; exact hr n)
        have hcond : ¬ ((ChainB.gateRun g rms d n).holdTime ≤
            (ChainB.gateRun g rms d n).holdCounter + d) := by
          rw [(gateRun_config g rms d n).2.2, hhc]
          rw [hcast] at hlt
          linarith
        have hrun : ChainB.gateRun g rms d (n + 1) =
            { ChainB.gateRun g rms d n with
                holdCounter := (ChainB.gateRun g rms d n).holdCounter + d } := by
          show (ChainB.processNoiseGate (ChainB.gateRun g rms d n) (rms n) d).1 = _
          rw [hstep, if_neg hcond]
        rw [hrun]
        constructor
        · simp [hio]
        · simp [hhc]
          ring
  have close1 : ∀ n : ℕ, (n : ℚ) * d < g.holdTime →
      g.holdTime ≤ ((n : ℚ) + 1) * d →
      (ChainB.gateRun g rms d (n + 1)).isOpen = false ∧
      (ChainB.gateRun g rms d (n + 1)).holdCounter = 0 := by
    intro n hlt hge
    obtain ⟨hio, hhc⟩ := main n hlt
    have hstep := gate_step_open_low (ChainB.gateRun g rms d n) (rms n) d hio
      (by rw [(gateRun_config g rms d n).2.1]; exact hr n)
    have hcond : (ChainB.gateRun g rms d n).holdTime ≤
        (ChainB.gateRun g rms d n).holdCounter + d := by
      rw [(gateRun_config g rms d n).2.2, hhc]
      linarith [hge]
    have hrun : ChainB.gateRun g rms d (n + 1) =
        { ChainB.gateRun g rms d n with isOpen := false, holdCounter := 0 } := by
      show (ChainB.processNoiseGate (ChainB.gateRun g rms d n) (rms n) d).1 = _
      rw [hstep, if_pos hcond]
    rw [hrun]
    exact ⟨rfl, rfl⟩
  have closedStays : ∀ n k : ℕ, (ChainB.gateRun g rms d n).isOpen = false →
      (ChainB.gateRun g rms d (n + k)).isOpen = false := by
    intro n k
    induction k with
    | zero => exact fun h => h
    | succ k ih =>
        intro h
        have hc := ih h
        have hrle : rms (n + k) ≤ (ChainB.gateRun g rms d (n + k)).openThreshold := by
          rw [(gateRun_config g rms d (n + k)).1]
          exact le_of_lt (lt_of_le_of_lt (hr (n + k)) hhys)
        have hrun : ChainB.gateRun g rms d (n + (k + 1)) =
            (ChainB.processNoiseGate (ChainB.gateRun g rms d (n + k)) (rms (n + k)) d).1 :=
          rfl
        rw [hrun, gate_step_closed _ _ _ hc hrle]
        exact hc
  have reset : ∀ (s : ChainB.GateParams) (r : ℚ), s.isOpen = true →
      s.closeThreshold < r →
      (ChainB.processNoiseGate s r d).1.isOpen = true ∧
      (ChainB.processNoiseGate s r d).1.holdCounter = 0 := by
    intro s r hso hsr
    have ht : ChainB.gateThreshold s = s.closeThreshold := by
      simp [ChainB.gateThreshold, hso]
    unfold ChainB.processNoiseGate
    rw [ht, if_neg (by simp [hso]), if_neg (by simp [not_le.mpr hsr]),
      if_pos ⟨hso, hsr⟩]
    exact ⟨hso, rfl⟩
  exact ⟨main, close1, closedStays, reset⟩

/-- C2 (witness): the hold/close behavior instantiated at the high preset
opened, with silent frames of the Chain B block duration (512 samples at
48 kHz, i.e. 32/3 ms): the 24th frame is the first whose accumulated
duration (256 ms) reaches the 250 ms hold time, and the gate is Closed
there. -/
theorem c2_gate_hold_then_single_close_witness :
    (ChainB.gateRun { ChainB.initGateParams with isOpen := true }
        (fun _ => 0) (32 / 3) 24).isOpen = false := by
  have h := c2_gate_hold_then_single_close
    { ChainB.initGateParams with isOpen := true } (fun _ => 0) (32 / 3)
    rfl rfl (by norm_num)
    (by norm_num [ChainB.initGateParams])
    (fun n => by norm_num [ChainB.initGateParams])
  exact (h.2.1 23 (by norm_num [ChainB.initGateParams])
    (by norm_num [ChainB.initGateParams])).1

/-- C10: whenever the gate is Closed the hold counter is zero — the initial
state satisfies it, every single `processNoiseGate` transition preserves it,
and hence every state reachable from the initial state by analysis frames
satisfies it (a hold countdown exists only while the gate is Open). -/
theorem c10_closed_implies_hold_zero (s : ChainB.GateParams) (rms0 d0 : ℚ)
    (hs : s.isOpen = false → s.holdCounter = 0) (rms : ℕ → ℚ) (d : ℚ) :
    (ChainB.initGateParams.isOpen = false ∧
     ChainB.initGateParams.holdCounter = 0) ∧
    ((ChainB.processNoiseGate s rms0 d0).1.isOpen = false →
      (ChainB.processNoiseGate s rms0 d0).1.holdCounter = 0) ∧
    (∀ n : ℕ, (ChainB.gateRun ChainB.initGateParams rms d n).isOpen = false →
      (ChainB.gateRun ChainB.initGateParams rms d n).holdCounter = 0) := by
  refine ⟨⟨rfl, rfl⟩, gate_step_inv s rms0 d0 hs, ?_⟩
  intro n
  induction n with
  | zero => exact fun _ => rfl
  | succ n ih => exact gate_step_inv _ (rms n) d ih

/-- C10 (witness): the reachable-state invariant applied at the initial
(Closed) state of the run: the hold counter is zero there. -/
theorem c10_closed_implies_hold_zero_witness :
    (ChainB.gateRun ChainB.initGateParams (fun _ => 0) (32 / 3) 0).holdCounter = 0 := by
  have h := (c10_closed_implies_hold_zero ChainB.initGateParams 0 (32 / 3)
      (fun _ => rfl) (fun _ => 0) (32 / 3)).2.2 0
  exact h rfl
